import Mathlib

/-!
Verification development for the Trip-Agent repository (src/api_app.py).

The program is a FastAPI wrapper around a three-agent, three-task crewai
pipeline for travel planning, plus three custom tools (calculator, web
search, fetch-and-summarize).  This file gives a shallow embedding of the
data model and the operations of src/api_app.py: pure fragments become
Lean functions; external collaborators (the language model, HTTP
responses, the Python eval builtin, the HTML partitioner) become explicit
oracle parameters or response records, so every theorem quantifies over
their behavior.  Text is modelled as Lean String (Python str slicing is
by characters, as is List Char / String here).
-/

/-! ## HTTP response models

A tool call sees of an HTTP interaction only the status code and payload,
so a response is embedded as a record of the fields the code reads. -/

/-- One organic search result as read from the Serper response JSON:
the code accesses result.get of title, link, snippet with default "N/A",
so each field is an Option. -/
structure SearchResult where
  title : Option String
  link : Option String
  snippet : Option String
deriving DecidableEq, Repr

/-- The response of the search API as seen by SearchTools.run:
status_code, and the organic field of the parsed JSON body
(response.json().get with default empty list). -/
structure SearchResponse where
  status_code : Nat
  organic : List SearchResult
deriving DecidableEq, Repr

/-- The response of the browserless fetch API as seen by
BrowserTools.run: status_code and the raw body text. -/
structure FetchResponse where
  status_code : Nat
  text : String
deriving DecidableEq, Repr

/-! ## Chunk splitting (src/api_app.py line 103)

content[i:i + 8000] for i in range(0, len(content), 8000) slices the
text into successive windows of at most c characters: take the first c
characters, recurse on the rest.  The source fixes c = 8000. -/

/-- Splitting a character list into successive chunks of size c,
embedding the slice comprehension at src/api_app.py:103. -/
def chunkSplit (c : Nat) (s : List Char) : List (List Char) :=
  if h1 : c = 0 then []
  else if h2 : s = [] then []
  else s.take c :: chunkSplit c (s.drop c)
termination_by s.length
decreasing_by
  simp only [List.length_drop]
  have h3 : 0 < s.length := List.length_pos.mpr h2
  omega

theorem chunkSplit_nil (c : Nat) : chunkSplit c [] = [] := by
  unfold chunkSplit
  simp

theorem chunkSplit_cons (c : Nat) (s : List Char) (hc : c ≠ 0) (hs : s ≠ []) :
    chunkSplit c s = s.take c :: chunkSplit c (s.drop c) := by
  conv_lhs => unfold chunkSplit
  simp [hc, hs]

/-- Concatenating the chunks in order reproduces the original text. -/
theorem chunkSplit_join (c : Nat) (hc : c ≠ 0) :
    ∀ n (s : List Char), s.length ≤ n → (chunkSplit c s).flatten = s := by
  intro n
  induction n with
  | zero =>
    intro s hs
    have : s = [] := List.eq_nil_of_length_eq_zero (Nat.le_zero.mp hs)
    subst this
    simp [chunkSplit_nil]
  | succ m ih =>
    intro s hs
    by_cases hnil : s = []
    · subst hnil; simp [chunkSplit_nil]
    · rw [chunkSplit_cons c s hc hnil]
      have hlen : (s.drop c).length ≤ m := by
        have h3 : 0 < s.length := List.length_pos.mpr hnil
        simp only [List.length_drop]
        omega
      simp [List.flatten, ih (s.drop c) hlen, List.take_append_drop]

/-- The number of chunks is the ceiling of length over chunk size. -/
theorem chunkSplit_length (c : Nat) (hc : c ≠ 0) :
    ∀ n (s : List Char), s.length ≤ n →
      (chunkSplit c s).length = (s.length + c - 1) / c := by
  intro n
  induction n with
  | zero =>
    intro s hs
    have : s = [] := List.eq_nil_of_length_eq_zero (Nat.le_zero.mp hs)
    subst this
    simp only [chunkSplit_nil, List.length_nil, Nat.zero_add]
    symm
    exact Nat.div_eq_of_lt (by omega)
  | succ m ih =>
    intro s hs
    by_cases hnil : s = []
    · subst hnil
      simp only [chunkSplit_nil, List.length_nil, Nat.zero_add]
      symm
      exact Nat.div_eq_of_lt (by omega)
    · rw [chunkSplit_cons c s hc hnil]
      have hpos : 0 < s.length := List.length_pos.mpr hnil
      have hlen : (s.drop c).length ≤ m := by
        simp only [List.length_drop]
        omega
      have ihd := ih (s.drop c) hlen
      simp only [List.length_cons, ihd, List.length_drop]
      rcases Nat.lt_or_ge s.length c with hlt | hge
      · have h0 : s.length - c = 0 := by omega
        rw [h0]
        have hz : (0 + c - 1) / c = 0 := Nat.div_eq_of_lt (by omega)
        have ho : (s.length + c - 1) / c = 1 := by
          have hcpos : 0 < c := Nat.pos_of_ne_zero hc
          apply Nat.div_eq_of_lt_le
          · omega
          · omega
        rw [hz, ho]
      · have h1 : s.length - c + c - 1 = s.length - 1 := by omega
        have h2 : s.length + c - 1 = (s.length - 1) + c := by omega
        rw [h1, h2, Nat.add_div_right _ (Nat.pos_of_ne_zero hc)]

/-! ## Agents and tasks (crewai objects as configuration records)

Agent and Task come from the external crewai library; the program only
constructs them with literal configuration, so they are embedded as
records of exactly the fields the program sets.  The language model and
the agent execution loop are opaque collaborators and appear as oracle
parameters of the theorems.  Upstream-context lists hold positions of
tasks in the crew task list (the Python objects hold references; in the
program every referenced task is a member of the same crew). -/

/-- An agent configuration: the arguments of the crewai Agent
constructor as used in src/api_app.py (tools listed by tool name). -/
structure AgentSpec where
  role : String
  goal : String
  backstory : String
  tools : List String
  allow_delegation : Bool
  verbose : Bool
  llm : String
deriving DecidableEq, Repr

/-- A task configuration: the arguments of the crewai Task constructor
as used in src/api_app.py, plus the context field the program assigns.
context holds indices into the crew task list. -/
structure TaskSpec where
  description : String
  expected_output : String
  agent : AgentSpec
  context : List Nat
deriving DecidableEq, Repr

/-! ## Tool bodies (src/api_app.py lines 30-128)

Each tool body is total: the Python code wraps everything in try/except
and returns a string in every branch, which the embedding mirrors by
being a Lean function into String. -/

/-- CalculatorTools.run (src/api_app.py lines 40-44).  The code passes
the raw operation string to the Python eval builtin; eval is external,
so it is an oracle parameter: ok v is a successful evaluation printing
v, error e is a raised exception with message e.  Note that the code
applies no restriction of its own to the operation before handing it to
the oracle. -/
def CalculatorTools.run (pyEval : String → Except String String) (operation : String) : String :=
  match pyEval operation with
  | .ok v => "The result is " ++ v
  | .error e => "Error performing calculation: " ++ e

/-- Modelled from the spec: the restricted arithmetic-expression form
demanded by sections 4.1 and 9 (numeric literals and the four operators,
no identifiers, no function calls).  A character-level necessary
condition: every character is a digit, an operator, a dot, a space or a
parenthesis - in particular no letters, so no identifiers and no calls. -/
def isRestrictedArithChar (c : Char) : Bool :=
  c.isDigit || c = '+' || c = '-' || c = '*' || c = '/' || c = '.' || c = ' ' || c = '(' || c = ')'

/-- Modelled from the spec: a string is in restricted arithmetic form
only if all its characters are. -/
def isRestrictedArith (s : String) : Bool :=
  s.data.all isRestrictedArithChar

/-- Modelled from Python semantics: the behavior of the eval builtin on
the single input used as failing input for the calculator claim.  In
CPython, eval applied to the call expression len of the string abc
resolves the identifier len and calls it, returning 3. -/
def pyEvalLenAbc : String → Except String String :=
  fun s => if s = "len(\x27abc\x27)" then .ok "3" else .error "not modelled"

/-- The block formatting of one search result (src/api_app.py lines
72-78): a newline-joined title/link/snippet/delimiter block, with
default N/A for missing fields. -/
def SearchTools.formatResult (r : SearchResult) : String :=
  "Title: " ++ r.title.getD "N/A" ++ "\n" ++
  "Link: " ++ r.link.getD "N/A" ++ "\n" ++
  "Snippet: " ++ r.snippet.getD "N/A" ++ "\n" ++
  "-----------------"

/-- SearchTools.run (src/api_app.py lines 54-81) as a function of the
HTTP response the Serper API returned. -/
def SearchTools.run (resp : SearchResponse) : String :=
  if resp.status_code ≠ 200 then
    "Error: Search API request failed. Status: " ++ toString resp.status_code
  else if resp.organic.isEmpty then
    "No results found."
  else
    String.intercalate "\n" ((resp.organic.take 4).map SearchTools.formatResult)

/-- The summarizer agent constructed inside BrowserTools.run
(src/api_app.py lines 109-115). -/
def summarizerAgent : AgentSpec :=
  { role := "Principal Researcher"
    goal := "Provide concise and relevant summaries of text content."
    backstory := "You are an expert researcher, skilled at extracting the most important information from any text."
    tools := []
    allow_delegation := false
    verbose := false
    llm := "gemini/gemini-2.0-flash" }

/-- The single-chunk summarization task constructed inside the loop of
BrowserTools.run (src/api_app.py lines 118-122). -/
def summarizeChunkTask (chunk : String) : TaskSpec :=
  { description := "Analyze and summarize the following content. Focus on the most relevant information. Return only the summary.\n\nCONTENT:\n" ++ chunk
    expected_output := "A concise summary of the provided text."
    agent := summarizerAgent
    context := [] }

/-- The chunk list computed by BrowserTools.run (src/api_app.py lines
101-103): partition_html output elements are joined with blank lines
and split into 8000-character chunks.  partitionHtml is the oracle for
the external HTML partitioner (the list of element strings). -/
def BrowserTools.chunks (partitionHtml : String → List String) (resp : FetchResponse) : List String :=
  (chunkSplit 8000 (String.intercalate "\n\n" (partitionHtml resp.text)).data).map String.mk

/-- The summarization tasks BrowserTools.run executes, one per chunk,
in chunk order (src/api_app.py lines 117-124). -/
def BrowserTools.summaryTasks (partitionHtml : String → List String) (resp : FetchResponse) : List TaskSpec :=
  (BrowserTools.chunks partitionHtml resp).map summarizeChunkTask

/-- BrowserTools.run (src/api_app.py lines 91-128) as a function of the
fetch response; executeTask is the oracle for task.execute of the
external crewai library (one invocation per summarization task). -/
def BrowserTools.run (partitionHtml : String → List String)
    (executeTask : TaskSpec → String) (resp : FetchResponse) : String :=
  if resp.status_code ≠ 200 then
    "Error fetching website. Status: " ++ toString resp.status_code ++ " " ++ resp.text
  else
    String.intercalate "\n\n" ((BrowserTools.summaryTasks partitionHtml resp).map executeTask)

/-! ## TripAgents (src/api_app.py lines 133-163) -/

/-- The shared model client identifier (src/api_app.py line 136). -/
def TripAgents.llm : String := "gemini/gemini-2.0-flash"

/-- TripAgents.city_selection_agent (src/api_app.py lines 138-145). -/
def TripAgents.city_selection_agent : AgentSpec :=
  { role := "City Selection Expert"
    goal := "Select the best city for a trip based on weather, season, and prices."
    backstory := "An expert in analyzing travel data to pick ideal destinations."
    tools := ["Search the internet", "Scrape website content"]
    allow_delegation := false
    verbose := true
    llm := TripAgents.llm }

/-- TripAgents.local_expert (src/api_app.py lines 147-154). -/
def TripAgents.local_expert : AgentSpec :=
  { role := "Local Expert"
    goal := "Provide the best local insights for a given city."
    backstory := "A knowledgeable local guide with extensive information about the city\x27s attractions, customs, and hidden gems."
    tools := ["Search the internet", "Scrape website content"]
    allow_delegation := false
    verbose := true
    llm := TripAgents.llm }

/-- TripAgents.travel_concierge (src/api_app.py lines 156-163). -/
def TripAgents.travel_concierge : AgentSpec :=
  { role := "Amazing Travel Concierge"
    goal := "Create a detailed, personalized travel itinerary with budget and packing suggestions."
    backstory := "A specialist in travel planning with decades of experience creating memorable trips."
    tools := ["Search the internet", "Scrape website content", "Make a calculation"]
    allow_delegation := false
    verbose := true
    llm := TripAgents.llm }

/-! ## TripTasks (src/api_app.py lines 167-212)

The descriptions are the dedented f-string templates with the run-time
parameters substituted, exactly as the Python textwrap.dedent produces
them (leading newline kept, whitespace-only final line normalized to an
empty line, 16-space margin removed). -/

/-- TripTasks.__tip_section (src/api_app.py lines 168-169). -/
def TripTasks.tip_section : String :=
  "If you do your BEST WORK, I\x27ll tip you $100!"

/-- TripTasks.identify_task (src/api_app.py lines 171-183); crewai Task
construction carries no context argument here, so context is empty at
construction. -/
def TripTasks.identify_task (agent : AgentSpec) (origin destination interests date_range : String) : TaskSpec :=
  { description :=
      "\nAnalyze and select the best city for a trip based on the user\x27s criteria.\nWhile the user suggested "
      ++ destination
      ++ ", you can recommend a different city if it\x27s a better fit.\nYour final answer must be a detailed report on the chosen city, including flight costs, weather forecast, and top attractions.\n"
      ++ TripTasks.tip_section
      ++ "\n**Trip Details:**\n- From: "
      ++ origin ++ ", To: " ++ destination ++ ", Dates: " ++ date_range
      ++ ", Interests: " ++ interests ++ "\n"
    expected_output := "A detailed report on the chosen city with flight costs, weather, and attractions."
    agent := agent
    context := [] }

/-- TripTasks.gather_task (src/api_app.py lines 185-197). -/
def TripTasks.gather_task (agent : AgentSpec) (interests date_range : String) : TaskSpec :=
  { description :=
      "\nCompile an in-depth guide for the city chosen in the previous step.\nFocus on key attractions, local customs, and daily activities matching the traveler\x27s interests. Find hidden gems.\nThe final answer must be a comprehensive city guide rich in cultural insights and practical tips.\n"
      ++ TripTasks.tip_section
      ++ "\n**Trip Details:**\n- Dates: " ++ date_range ++ ", Interests: " ++ interests ++ "\n"
    expected_output := "A comprehensive city guide with cultural insights and practical tips."
    agent := agent
    context := [] }

/-- TripTasks.plan_task (src/api_app.py lines 199-212). -/
def TripTasks.plan_task (agent : AgentSpec) (interests date_range : String) : TaskSpec :=
  { description :=
      "\nExpand the city guide into a full, day-by-day travel itinerary.\nInclude detailed plans, weather forecasts, restaurant recommendations, packing suggestions, and a complete budget breakdown.\nYou MUST suggest actual places, hotels, and restaurants, explaining why each choice fits the traveler\x27s interests.\nYour final answer MUST be a complete travel plan, formatted as markdown.\n"
      ++ TripTasks.tip_section
      ++ "\n**Trip Details:**\n- Dates: " ++ date_range ++ ", Interests: " ++ interests ++ "\n"
    expected_output := "A complete markdown travel plan with a daily schedule, budget, and packing list."
    agent := agent
    context := [] }

/-! ## Crew execution (crewai Crew.kickoff, external to src/) -/

/-- Concatenation of a list of strings, used for injecting upstream
results as context. -/
def concatAll : List String → String
  | [] => ""
  | s :: ss => s ++ concatAll ss

/-- Modelled from the spec: the context text a task receives is the
concatenated text of all of its upstream results (section 4.3), looked
up by position in the list of already-produced results. -/
def contextText (results : List String) (ctx : List Nat) : String :=
  concatAll (ctx.map (fun i => results.getD i ""))

/-- Modelled from the spec: Crew.kickoff of the external crewai library
is not part of src/.  Per sections 2 and 4.4 the coordinator executes
the tasks strictly in list order, invoking the assigned agent on each
task with its upstream context, and collects each result; agentRun is
the oracle for one agent execution (task and injected context text to
final text).  crewTrace returns the results in execution order. -/
def crewTrace (agentRun : TaskSpec → String → String) : List TaskSpec → List String → List String
  | [], acc => acc
  | t :: ts, acc => crewTrace agentRun ts (acc ++ [agentRun t (contextText acc t.context)])

/-- Modelled from the spec: the overall pipeline output returned by
Crew.kickoff is the final task\x27s result (sections 2 and 4.4). -/
def crewKickoff (agentRun : TaskSpec → String → String) (tasks : List TaskSpec) : String :=
  (crewTrace agentRun tasks []).getLastD ""

/-! ## TripCrew (src/api_app.py lines 259-283) -/

/-- TripCrew constructor fields (src/api_app.py lines 260-264). -/
structure TripCrew where
  origin : String
  destination : String
  date_range : String
  interests : String
deriving DecidableEq, Repr

/-- The final task list the crew executes, as built by TripCrew.run
(src/api_app.py lines 266-282): three tasks in the order identify,
gather, plan; after construction the code assigns
gather_task.context = [identify_task] and plan_task.context =
[gather_task], here recorded as positions 0 and 1 of the crew list. -/
def TripCrew.tasksList (c : TripCrew) : List TaskSpec :=
  let identify_task := TripTasks.identify_task TripAgents.city_selection_agent c.origin c.destination c.interests c.date_range
  let gather_task := TripTasks.gather_task TripAgents.local_expert c.interests c.date_range
  let plan_task := TripTasks.plan_task TripAgents.travel_concierge c.interests c.date_range
  [identify_task,
   { gather_task with context := [0] },
   { plan_task with context := [1] }]

/-- TripCrew.run (src/api_app.py lines 266-283): build the three agents
and tasks, chain the contexts, and return crew.kickoff. -/
def TripCrew.run (agentRun : TaskSpec → String → String) (c : TripCrew) : String :=
  crewKickoff agentRun c.tasksList

/-! ## Construction-versus-mutation trace of TripCrew.run

The Python body first constructs the three Task objects and then
mutates the context attribute of two of them.  To reason about what is
bound at construction and what is assigned afterwards, the body is also
embedded as the sequence of its object-building steps. -/

/-- One object-building step of TripCrew.run: constructing a task
(appending it to the built list, with the fields passed to the
constructor), or assigning the context attribute of the task at a given
position. -/
inductive BuildEvent where
  | constructTaskEvent (t : TaskSpec) : BuildEvent
  | setContextEvent (idx : Nat) (ctx : List Nat) : BuildEvent
deriving DecidableEq, Repr

/-- Whether a build step is a construction (rather than a mutation of
an already-constructed task). -/
def BuildEvent.isConstruction : BuildEvent → Bool
  | .constructTaskEvent _ => true
  | .setContextEvent _ _ => false

/-- The build steps TripCrew.run performs, in program order
(src/api_app.py lines 271-276): three constructions, then the two
context assignments. -/
def TripCrew.buildTrace (c : TripCrew) : List BuildEvent :=
  [ .constructTaskEvent (TripTasks.identify_task TripAgents.city_selection_agent c.origin c.destination c.interests c.date_range),
    .constructTaskEvent (TripTasks.gather_task TripAgents.local_expert c.interests c.date_range),
    .constructTaskEvent (TripTasks.plan_task TripAgents.travel_concierge c.interests c.date_range),
    .setContextEvent 1 [0],
    .setContextEvent 2 [1] ]

/-- Assigning the context attribute of the task at position idx. -/
def setContextAt : List TaskSpec → Nat → List Nat → List TaskSpec
  | [], _, _ => []
  | t :: ts, 0, ctx => { t with context := ctx } :: ts
  | t :: ts, n + 1, ctx => t :: setContextAt ts n ctx

/-- Replaying one build step on the list of tasks built so far. -/
def replayEvent (tasks : List TaskSpec) : BuildEvent → List TaskSpec
  | .constructTaskEvent t => tasks ++ [t]
  | .setContextEvent idx ctx => setContextAt tasks idx ctx

/-- Replaying a build trace from an empty object store. -/
def replayTrace (evs : List BuildEvent) : List TaskSpec :=
  evs.foldl replayEvent []

/-- The task fields other than context (those never assigned after
construction). -/
def TaskSpec.fixedFields (t : TaskSpec) : String × String × AgentSpec :=
  (t.description, t.expected_output, t.agent)

/-- The context a construction event binds, if the event is one. -/
def BuildEvent.constructedContext : BuildEvent → Option (List Nat)
  | .constructTaskEvent t => some t.context
  | .setContextEvent _ _ => none

/-- The fixed fields a construction event binds, if the event is one. -/
def BuildEvent.constructedFixedFields : BuildEvent → Option (String × String × AgentSpec)
  | .constructTaskEvent t => some t.fixedFields
  | .setContextEvent _ _ => none

/-! ## The API layer (src/api_app.py lines 221-303) -/

/-- A Python datetime.date value. -/
structure PyDate where
  year : Nat
  month : Nat
  day : Nat
deriving DecidableEq, Repr

/-- Python date comparison: lexicographic on (year, month, day). -/
def PyDate.le (a b : PyDate) : Bool :=
  if a.year ≠ b.year then decide (a.year < b.year)
  else if a.month ≠ b.month then decide (a.month < b.month)
  else decide (a.day ≤ b.day)

/-- Full English month name, as Python strftime directive B renders
it. -/
def monthName : Nat → String
  | 1 => "January" | 2 => "February" | 3 => "March" | 4 => "April"
  | 5 => "May" | 6 => "June" | 7 => "July" | 8 => "August"
  | 9 => "September" | 10 => "October" | 11 => "November" | 12 => "December"
  | _ => ""

/-- Zero-padded two-digit day, as Python strftime directive d renders
it. -/
def pad2 (n : Nat) : String :=
  if n < 10 then "0" ++ toString n else toString n

/-- Python strftime with format B d, Y used at src/api_app.py:296. -/
def PyDate.strftimeBdY (d : PyDate) : String :=
  monthName d.month ++ " " ++ pad2 d.day ++ ", " ++ toString d.year

/-- TripRequest (src/api_app.py lines 221-226). -/
structure TripRequest where
  origin : String
  destination : String
  start_date : PyDate
  end_date : PyDate
  interests : String
deriving DecidableEq, Repr

/-- TripResponse (src/api_app.py lines 228-232). -/
structure TripResponse where
  status : String
  message : String
  itinerary : Option String
  error : Option String
deriving DecidableEq, Repr

/-- Settings (src/api_app.py lines 236-240): the three environment
variables as os.getenv returns them (none when the variable is
unset). -/
structure Settings where
  GEMINI_API_KEY : Option String
  SERPER_API_KEY : Option String
  BROWSERLESS_API_KEY : Option String
deriving DecidableEq, Repr

/-- Python truthiness of an optional environment value: None and the
empty string are falsy (the code tests "if not value"). -/
def keyPresent : Option String → Bool
  | none => false
  | some v => !(v == "")

/-- The required-credentials association list of validate_api_keys
(src/api_app.py lines 247-251), in dict insertion order. -/
def Settings.required (s : Settings) : List (String × Option String) :=
  [("GEMINI_API_KEY", s.GEMINI_API_KEY),
   ("SERPER_API_KEY", s.SERPER_API_KEY),
   ("BROWSERLESS_API_KEY", s.BROWSERLESS_API_KEY)]

/-- The missing_keys comprehension of validate_api_keys
(src/api_app.py line 252). -/
def Settings.missingKeys (s : Settings) : List String :=
  (s.required.filter (fun kv => !keyPresent kv.2)).map (fun kv => kv.1)

/-- An HTTPException as raised by the endpoint: status code and
detail. -/
structure HttpError where
  status_code : Nat
  detail : String
deriving DecidableEq, Repr

/-- validate_api_keys (src/api_app.py lines 246-255): raise 500 naming
the missing keys, or return the settings unchanged. -/
def validate_api_keys (s : Settings) : Except HttpError Settings :=
  if s.missingKeys.isEmpty then .ok s
  else .error ⟨500, "Missing API keys: " ++ String.intercalate ", " s.missingKeys⟩

/-- plan_trip (src/api_app.py lines 291-303).  FastAPI resolves the
validate_api_keys dependency before the endpoint body runs; then the
body validates the date range, and only then constructs and runs the
crew.  The returned pair is the endpoint outcome together with the list
of tasks the run executes: the empty list on every rejection path,
since no pipeline, agent or task is constructed there.  agentRun is the
oracle for agent execution; it is total, so the try/except around
crew.run never sees an exception in this model. -/
def plan_trip (agentRun : TaskSpec → String → String) (s : Settings)
    (req : TripRequest) : Except HttpError TripResponse × List TaskSpec :=
  match validate_api_keys s with
  | .error e => (.error e, [])
  | .ok _ =>
    if PyDate.le req.end_date req.start_date then
      (.error ⟨400, "End date must be after start date."⟩, [])
    else
      let date_range := req.start_date.strftimeBdY ++ " to " ++ req.end_date.strftimeBdY
      let crew : TripCrew := ⟨req.origin, req.destination, date_range, req.interests⟩
      (.ok { status := "success"
             message := "Trip plan generated successfully."
             itinerary := some (TripCrew.run agentRun crew)
             error := none },
       crew.tasksList)

/-! ## Claim theorems -/

/-- Claim C2: for every input text of length L and the fixed chunk size
C = 8000, the chunk-splitting step of the fetch-and-summarize tool
(src/api_app.py line 103) produces exactly the ceiling of L over C
chunks, and concatenating the chunks in order reproduces the original
text exactly. -/
theorem claim_C2 (s : List Char) :
    (chunkSplit 8000 s).flatten = s ∧
    (chunkSplit 8000 s).length = (s.length + 8000 - 1) / 8000 :=
  ⟨chunkSplit_join 8000 (by omega) s.length s (le_refl _),
   chunkSplit_length 8000 (by omega) s.length s (le_refl _)⟩

/-- The needle string occurs contiguously inside the haystack
string. -/
def textContains (hay needle : String) : Prop :=
  ∃ a b : List Char, hay.data = a ++ needle.data ++ b

/-- Claim C3: for every HTTP status other than success (200) returned
by the backing API, both the search tool and the fetch-and-summarize
tool return a text result that contains the status code (and, being
total Lean functions mirroring the try/except-wrapped Python bodies,
never raise past the tool boundary). -/
theorem claim_C3 (sresp : SearchResponse) (fresp : FetchResponse)
    (partitionHtml : String → List String) (executeTask : TaskSpec → String)
    (hs : sresp.status_code ≠ 200) (hf : fresp.status_code ≠ 200) :
    textContains (SearchTools.run sresp) (toString sresp.status_code) ∧
    textContains (BrowserTools.run partitionHtml executeTask fresp) (toString fresp.status_code) := by
  constructor
  · refine ⟨("Error: Search API request failed. Status: " : String).data, [], ?_⟩
    simp [SearchTools.run, hs, String.data_append]
  · refine ⟨("Error fetching website. Status: " : String).data, (" " ++ fresp.text).data, ?_⟩
    simp [BrowserTools.run, hf, String.data_append]

/-- Witness for claim C3 at status 404 (search) and 500 (fetch). -/
theorem claim_C3_witness :
    textContains (SearchTools.run ⟨404, []⟩) (toString (404 : Nat)) ∧
    textContains (BrowserTools.run (fun _ => []) (fun _ => "") ⟨500, "gone"⟩) (toString (500 : Nat)) :=
  claim_C3 ⟨404, []⟩ ⟨500, "gone"⟩ (fun _ => []) (fun _ => "") (by decide) (by decide)

/-- Claim C7: for every search whose backing API call succeeds (status
200) but returns a result set of size 0, the search tool returns its
explicit no-results text - the literal "No results found." - which is
neither the empty string nor a fault. -/
theorem claim_C7 (resp : SearchResponse) (h200 : resp.status_code = 200)
    (hempty : resp.organic = []) :
    SearchTools.run resp = "No results found." ∧ SearchTools.run resp ≠ "" := by
  have hrun : SearchTools.run resp = "No results found." := by
    simp [SearchTools.run, h200, hempty]
  exact ⟨hrun, by rw [hrun]; decide⟩

/-- Witness for claim C7: a 200 response with an empty organic list. -/
theorem claim_C7_witness :
    SearchTools.run ⟨200, []⟩ = "No results found." ∧ SearchTools.run ⟨200, []⟩ ≠ "" :=
  claim_C7 ⟨200, []⟩ rfl rfl

/-- Claim C8: for every successful search (status 200) with a non-empty
organic result list, the search tool returns exactly the first four
results (all of them when fewer than four exist), each formatted as a
title/link/snippet block ending in the delimiter line, the blocks
joined by newlines. -/
theorem claim_C8 (resp : SearchResponse) (h200 : resp.status_code = 200)
    (hne : resp.organic ≠ []) :
    SearchTools.run resp =
      String.intercalate "\n" ((resp.organic.take 4).map SearchTools.formatResult) ∧
    ((resp.organic.take 4).map SearchTools.formatResult).length = min 4 resp.organic.length := by
  constructor
  · simp [SearchTools.run, h200, List.isEmpty_iff, hne]
  · simp [List.length_map, List.length_take]

/-- Witness for claim C8: a 200 response with one organic result. -/
theorem claim_C8_witness :
    SearchTools.run ⟨200, [⟨some "T", some "L", some "S"⟩]⟩ =
      String.intercalate "\n" (([(⟨some "T", some "L", some "S"⟩ : SearchResult)].take 4).map SearchTools.formatResult) ∧
    (([(⟨some "T", some "L", some "S"⟩ : SearchResult)].take 4).map SearchTools.formatResult).length =
      min 4 [(⟨some "T", some "L", some "S"⟩ : SearchResult)].length :=
  claim_C8 ⟨200, [⟨some "T", some "L", some "S"⟩]⟩ rfl (by decide)

/-- Claim C10: if the text content extracted from a successfully
fetched page is the empty string, the fetch-and-summarize tool produces
zero chunks, builds and executes zero summarization tasks (so the
summarizer is invoked zero times), and returns the empty string, not an
error text. -/
theorem claim_C10 (partitionHtml : String → List String) (executeTask : TaskSpec → String)
    (resp : FetchResponse) (h200 : resp.status_code = 200)
    (hempty : String.intercalate "\n\n" (partitionHtml resp.text) = "") :
    BrowserTools.chunks partitionHtml resp = [] ∧
    BrowserTools.summaryTasks partitionHtml resp = [] ∧
    BrowserTools.run partitionHtml executeTask resp = "" := by
  have hchunks : BrowserTools.chunks partitionHtml resp = [] := by
    simp [BrowserTools.chunks, hempty, chunkSplit_nil]
  have htasks : BrowserTools.summaryTasks partitionHtml resp = [] := by
    simp [BrowserTools.summaryTasks, hchunks]
  refine ⟨hchunks, htasks, ?_⟩
  simp [BrowserTools.run, h200, htasks]
  rfl

/-- Witness for claim C10: a 200 fetch whose partitioned element list
is empty, so the extracted content is the empty string. -/
theorem claim_C10_witness :
    BrowserTools.chunks (fun _ => []) ⟨200, "page"⟩ = [] ∧
    BrowserTools.summaryTasks (fun _ => []) ⟨200, "page"⟩ = [] ∧
    BrowserTools.run (fun _ => []) (fun _ => "summary") ⟨200, "page"⟩ = "" :=
  claim_C10 (fun _ => []) (fun _ => "summary") ⟨200, "page"⟩ rfl rfl

/-- Claim C6 (failing input): the calculator tool body applies no
restriction to its input before handing it to the general evaluator.
The input len applied to the string abc is not in restricted arithmetic
form (it contains identifier letters and a call), yet the tool returns
a success text with the evaluated value rather than an error text,
because the body forwards the raw string to the Python eval builtin
(src/api_app.py line 42). -/
theorem claim_C6_bug :
    isRestrictedArith "len(\x27abc\x27)" = false ∧
    CalculatorTools.run pyEvalLenAbc "len(\x27abc\x27)" = "The result is 3" := by
  constructor
  · decide
  · rfl

/-- Claim C1: the trip pipeline builds exactly three tasks - city
selection, local guide, itinerary - in that order, with upstream
contexts forming the linear chain (gather depends exactly on identify,
plan depends exactly on gather); executing the crew produces the three
results in that order, each fed the previous result as context, and the
overall output is the final itinerary task result.  The agent execution
oracle agentRun is an arbitrary total function, so the statement covers
in particular every run in which tool calls only ever return absorbed
error texts: the pipeline still completes with the final task result.
The crew execution semantics is modelled from the spec (sections 2 and
4.4), since crewai Crew.kickoff is not part of src/. -/
theorem claim_C1 (agentRun : TaskSpec → String → String) (o d dr i : String) :
    (TripCrew.mk o d dr i).tasksList =
      [TripTasks.identify_task TripAgents.city_selection_agent o d i dr,
       { TripTasks.gather_task TripAgents.local_expert i dr with context := [0] },
       { TripTasks.plan_task TripAgents.travel_concierge i dr with context := [1] }] ∧
    crewTrace agentRun (TripCrew.mk o d dr i).tasksList [] =
      [agentRun (TripTasks.identify_task TripAgents.city_selection_agent o d i dr) "",
       agentRun { TripTasks.gather_task TripAgents.local_expert i dr with context := [0] }
         (agentRun (TripTasks.identify_task TripAgents.city_selection_agent o d i dr) ""),
       agentRun { TripTasks.plan_task TripAgents.travel_concierge i dr with context := [1] }
         (agentRun { TripTasks.gather_task TripAgents.local_expert i dr with context := [0] }
           (agentRun (TripTasks.identify_task TripAgents.city_selection_agent o d i dr) ""))] ∧
    TripCrew.run agentRun (TripCrew.mk o d dr i) =
      agentRun { TripTasks.plan_task TripAgents.travel_concierge i dr with context := [1] }
        (agentRun { TripTasks.gather_task TripAgents.local_expert i dr with context := [0] }
          (agentRun (TripTasks.identify_task TripAgents.city_selection_agent o d i dr) "")) := by
  refine ⟨rfl, ?_, ?_⟩
  · simp [TripCrew.tasksList, crewTrace, contextText, concatAll, String.append_empty]
  · simp [TripCrew.run, crewKickoff, TripCrew.tasksList, crewTrace, contextText, concatAll,
      String.append_empty]

/-- Claim C4: for every trip request whose end date is not strictly
after its start date (the equal-dates case included), plan_trip rejects
the request: the outcome is an HTTPException, the list of executed
tasks is empty (no pipeline, agent or task is constructed), and when
the API keys pass validation the rejection is exactly the 400 date
error. -/
theorem claim_C4 (agentRun : TaskSpec → String → String) (s : Settings)
    (req : TripRequest) (h : PyDate.le req.end_date req.start_date = true) :
    (plan_trip agentRun s req).2 = [] ∧
    (∃ e, (plan_trip agentRun s req).1 = .error e) ∧
    (s.missingKeys = [] →
      (plan_trip agentRun s req).1 = .error ⟨400, "End date must be after start date."⟩) := by
  unfold plan_trip validate_api_keys
  cases hm : s.missingKeys.isEmpty with
  | false =>
    refine ⟨by simp, ⟨⟨500, "Missing API keys: " ++ String.intercalate ", " s.missingKeys⟩, by simp⟩, ?_⟩
    intro hk
    rw [hk] at hm
    simp at hm
  | true =>
    refine ⟨by simp [h], ⟨⟨400, "End date must be after start date."⟩, by simp [h]⟩, fun _ => by simp [h]⟩

/-- Witness for claim C4: equal start and end dates (2025-09-10), all
keys present. -/
theorem claim_C4_witness :
    (plan_trip (fun _ _ => "") ⟨some "g", some "s", some "b"⟩
      ⟨"Bangalore, India", "Krabi, Thailand", ⟨2025, 9, 10⟩, ⟨2025, 9, 10⟩, "swimming, hiking"⟩).2 = [] ∧
    (∃ e, (plan_trip (fun _ _ => "") ⟨some "g", some "s", some "b"⟩
      ⟨"Bangalore, India", "Krabi, Thailand", ⟨2025, 9, 10⟩, ⟨2025, 9, 10⟩, "swimming, hiking"⟩).1 = .error e) ∧
    ((⟨some "g", some "s", some "b"⟩ : Settings).missingKeys = [] →
      (plan_trip (fun _ _ => "") ⟨some "g", some "s", some "b"⟩
        ⟨"Bangalore, India", "Krabi, Thailand", ⟨2025, 9, 10⟩, ⟨2025, 9, 10⟩, "swimming, hiking"⟩).1 =
        .error ⟨400, "End date must be after start date."⟩) :=
  claim_C4 (fun _ _ => "") ⟨some "g", some "s", some "b"⟩
    ⟨"Bangalore, India", "Krabi, Thailand", ⟨2025, 9, 10⟩, ⟨2025, 9, 10⟩, "swimming, hiking"⟩
    (by decide)

/-- Claim C5: if any of the three required API credentials is absent
(unset or empty), every call to plan_trip is rejected before execution
begins with the 500 configuration error naming the missing keys, and no
task executes.  (Conversely, when all three are present the missing
list is empty and validation passes, as the other claims use.) -/
theorem claim_C5 (agentRun : TaskSpec → String → String) (s : Settings)
    (req : TripRequest)
    (h : (keyPresent s.GEMINI_API_KEY && keyPresent s.SERPER_API_KEY &&
          keyPresent s.BROWSERLESS_API_KEY) = false) :
    s.missingKeys ≠ [] ∧
    (plan_trip agentRun s req).2 = [] ∧
    (plan_trip agentRun s req).1 =
      .error ⟨500, "Missing API keys: " ++ String.intercalate ", " s.missingKeys⟩ := by
  have hne : s.missingKeys ≠ [] := by
    unfold Settings.missingKeys Settings.required
    cases hg : keyPresent s.GEMINI_API_KEY <;>
      cases hs : keyPresent s.SERPER_API_KEY <;>
        cases hb : keyPresent s.BROWSERLESS_API_KEY <;>
          simp [hg, hs, hb, List.filter] <;> simp [hg, hs, hb] at h
  have hemp : s.missingKeys.isEmpty = false := by
    cases hmk : s.missingKeys with
    | nil => exact absurd hmk hne
    | cons a l => rfl
  refine ⟨hne, ?_, ?_⟩ <;> simp [plan_trip, validate_api_keys, hemp]

/-- Witness for claim C5: the Gemini key unset, the browserless key
empty. -/
theorem claim_C5_witness :
    (⟨none, some "k", some ""⟩ : Settings).missingKeys ≠ [] ∧
    (plan_trip (fun _ _ => "") ⟨none, some "k", some ""⟩
      ⟨"A", "B", ⟨2025, 9, 10⟩, ⟨2025, 9, 20⟩, "food"⟩).2 = [] ∧
    (plan_trip (fun _ _ => "") ⟨none, some "k", some ""⟩
      ⟨"A", "B", ⟨2025, 9, 10⟩, ⟨2025, 9, 20⟩, "food"⟩).1 =
      .error ⟨500, "Missing API keys: " ++
        String.intercalate ", " (⟨none, some "k", some ""⟩ : Settings).missingKeys⟩ :=
  claim_C5 (fun _ _ => "") ⟨none, some "k", some ""⟩
    ⟨"A", "B", ⟨2025, 9, 10⟩, ⟨2025, 9, 20⟩, "food"⟩ (by decide)

/-- Claim C9 (counterexample): it is not the case that every build step
TripCrew.run performs is a construction.  At the concrete inputs of the
spec scenario, the build trace contains the post-construction
assignment of the context attribute of the gather task (src/api_app.py
line 275), so the upstream-context list is not bound at task
construction: every task is constructed with an empty context, which is
mutated afterwards for tasks 1 and 2. -/
theorem claim_C9_cex :
    ¬ (∀ e ∈ TripCrew.buildTrace ⟨"Bangalore, India", "Krabi, Thailand",
          "September 10, 2025 to September 20, 2025", "swimming, hiking"⟩,
        e.isConstruction = true) := by
  intro h
  exact absurd
    (h (.setContextEvent 1 [0]) (by simp [TripCrew.buildTrace]))
    (by decide)

/-- Claim C9 (amended): the rendered instruction text, expected-output
description and assigned agent of every task are bound at construction
and never mutated afterwards; the upstream-context list, by contrast,
is empty at construction and is assigned exactly once after
construction - gather receives [identify], plan receives [gather],
both before the crew executes - and is not changed after that
assignment.  Formally: every construction in the build trace binds an
empty context; the non-construction steps are exactly the two context
assignments and follow all constructions; replaying the whole trace
yields exactly the task list the crew executes; and the fixed fields of
the replayed tasks coincide, in order, with those bound by the
construction events. -/
theorem claim_C9 (o d dr i : String) :
    ((TripCrew.buildTrace ⟨o, d, dr, i⟩).filterMap BuildEvent.constructedContext) = [[], [], []] ∧
    ((TripCrew.buildTrace ⟨o, d, dr, i⟩).filter (fun e => !e.isConstruction)) =
      [.setContextEvent 1 [0], .setContextEvent 2 [1]] ∧
    ((TripCrew.buildTrace ⟨o, d, dr, i⟩).take 3).all BuildEvent.isConstruction = true ∧
    ((TripCrew.buildTrace ⟨o, d, dr, i⟩).drop 3).all (fun e => !e.isConstruction) = true ∧
    replayTrace (TripCrew.buildTrace ⟨o, d, dr, i⟩) = (TripCrew.mk o d dr i).tasksList ∧
    (replayTrace (TripCrew.buildTrace ⟨o, d, dr, i⟩)).map TaskSpec.fixedFields =
      (TripCrew.buildTrace ⟨o, d, dr, i⟩).filterMap BuildEvent.constructedFixedFields :=
  ⟨rfl, rfl, rfl, rfl, rfl, rfl⟩
